import Mathlib

/-!
Verification of `ui.js` (James Diacono): a thin wrapper over the Custom
Elements mechanism of the browser.  The module keeps a `WeakMap` from element
instances to the handle returned by a per-element initializer, registers a
class per tag whose `connectedCallback`/`disconnectedCallback` look up that
handle and conditionally invoke `connect`/`disconnect`, and returns a frozen
`make_element` factory.

The embedding below follows the source line by line:

```js
let instances = new WeakMap();
function ui(tag, create) {
    if (customElements.get(tag) === undefined) {
        customElements.define(tag, class extends HTMLElement {
            connectedCallback() {
                const connect = instances.get(this)?.connect;
                if (typeof connect === "function") { connect(); }
            }
            disconnectedCallback() {
                const disconnect = instances.get(this)?.disconnect;
                if (typeof disconnect === "function") { disconnect(); }
            }
        });
    }
    return Object.freeze(function make_element(params) {
        const element = document.createElement(tag);
        instances.set(element, create(element, params));
        return element;
    });
}
export default Object.freeze(ui);
```

Elements are identified by allocation numbers.  The host platform
(`customElements`, `document.createElement`, the attach/detach lifecycle,
garbage collection of unreachable instances) is modelled explicitly, so that
failure paths the code avoids (duplicate registration, property access on
`undefined`) are genuinely present in the semantics.
-/

namespace UiJs

/-- JavaScript runtime values, restricted to the shapes `ui.js` manipulates.
`fn id` is a function value identified by `id`; `prim` stands for any
non-object, non-function, non-undefined value (string, number, boolean …);
`obj c d` is an object whose `connect` and `disconnect` properties are
`c` and `d` (`none` = property absent).  Other properties of handle objects
are never read by the library, so they are not modelled. -/
inductive JSValue : Type
  | undefined : JSValue
  | fn : Nat → JSValue
  | prim : JSValue
  | obj : Option JSValue → Option JSValue → JSValue
  deriving Repr

/-- Errors of the host platform and of user code. -/
inductive JSError : Type
  | notSupported : JSError
  | syntaxError : JSError
  | typeError : JSError
  | thrown : Nat → JSError
  deriving Repr, DecidableEq

/-- JavaScript property access `v.name`: throws a TypeError on `undefined`,
returns `undefined` for properties absent from the value. -/
def getMember (v : JSValue) (name : String) : Except JSError JSValue :=
  match v with
  | .undefined => .error .typeError
  | .fn _ => .ok .undefined
  | .prim => .ok .undefined
  | .obj c d =>
      if name = "connect" then .ok (c.getD .undefined)
      else if name = "disconnect" then .ok (d.getD .undefined)
      else .ok .undefined

/-- JavaScript optional chaining `v?.name`: short-circuits to `undefined`
instead of throwing when `v` is `undefined`. -/
def optChain (v : JSValue) (name : String) : Except JSError JSValue :=
  match v with
  | .undefined => .ok .undefined
  | v => getMember v name

/-- The check `typeof v === "function"`. -/
def isFunction : JSValue → Bool
  | .fn _ => true
  | _ => false

/-- The identity of a function value (only meaningful when `isFunction`). -/
def fnId : JSValue → Nat
  | .fn i => i
  | _ => 0

/-- What `customElements` has registered for a tag: either the class defined
by `ui`, or a registration made by code outside this library. -/
inductive CEDefinition : Type
  | uiClass : CEDefinition
  | foreign : Nat → CEDefinition
  deriving Repr, DecidableEq

/-- A DOM element: its tag name and whether it is currently attached to the
document. -/
structure ElementRec where
  tag : String
  attached : Bool
  deriving Repr, DecidableEq

/-- Association-list lookup keyed on the first component. -/
def alookup {α β : Type} [DecidableEq α] : List (α × β) → α → Option β
  | [], _ => none
  | (k, v) :: rest, a => if k = a then some v else alookup rest a

/-- The process-wide state: the `customElements` registry, the module-level
`instances` WeakMap (element id ↦ handle), the allocated elements, and the
next fresh element id. -/
structure State where
  registry : List (String × CEDefinition)
  instances : List (Nat × JSValue)
  elements : List (Nat × ElementRec)
  nextId : Nat
  deriving Repr

/-- Lookup `customElements.get(tag)`: the registered definition, if any. -/
def ceGet (s : State) (tag : String) : Option CEDefinition :=
  alookup s.registry tag

/-- A custom element name must contain a hyphen (approximation of the host
name grammar of the host platform; the library itself never validates names). -/
def validTagName (t : String) : Bool :=
  t.toList.contains '-'

/-- Registration `customElements.define(tag, d)`: the host platform throws a
SyntaxError
for an invalid name and a NotSupportedError for a duplicate registration. -/
def ceDefine (s : State) (tag : String) (d : CEDefinition) : Except JSError State :=
  if validTagName tag = false then .error .syntaxError
  else if (ceGet s tag).isSome then .error .notSupported
  else .ok { s with registry := (tag, d) :: s.registry }

/-- Lookup `instances.get(element)`: `WeakMap.get` returns `undefined` when the key
is absent. -/
def instancesGet (s : State) (elemId : Nat) : JSValue :=
  (alookup s.instances elemId).getD .undefined

/-- Observable events of a run: element construction, an invocation of the
initializer (with which arguments), an invocation of a handle callback (with
which arguments), and a lifecycle callback of a foreign registration. -/
inductive Event : Type
  | createElement : Nat → String → Event
  | initCall : Nat → Nat → JSValue → Event
  | invoke : Nat → List JSValue → Event
  | foreignCallback : Nat → String → Nat → Event
  deriving Repr

/-- Recogniser for `Event.initCall`. -/
def Event.isInit : Event → Bool
  | .initCall _ _ _ => true
  | _ => false

/-- The body of `connectedCallback`:
`const connect = instances.get(this)?.connect;
 if (typeof connect === "function") { connect(); }`. -/
def connectedCallback (s : State) (elemId : Nat) : Except JSError (List Event) :=
  match optChain (instancesGet s elemId) "connect" with
  | .error e => .error e
  | .ok connect =>
      if isFunction connect then .ok [.invoke (fnId connect) []] else .ok []

/-- The body of `disconnectedCallback`:
`const disconnect = instances.get(this)?.disconnect;
 if (typeof disconnect === "function") { disconnect(); }`. -/
def disconnectedCallback (s : State) (elemId : Nat) : Except JSError (List Event) :=
  match optChain (instancesGet s elemId) "disconnect" with
  | .error e => .error e
  | .ok disconnect =>
      if isFunction disconnect then .ok [.invoke (fnId disconnect) []] else .ok []

/-- A function object, as far as `Object.freeze` is concerned: its frozen
flag and its own properties. -/
structure FnObject where
  frozen : Bool
  props : List (String × JSValue)
  deriving Repr

/-- Freezing, `Object.freeze(f)`. -/
def freeze (f : FnObject) : FnObject :=
  { f with frozen := true }

/-- Property assignment `f.k = v`: silently ignored on a frozen object. -/
def setProperty (f : FnObject) (k : String) (v : JSValue) : FnObject :=
  if f.frozen then f
  else { f with props := (k, v) :: f.props.filter (fun p => p.1 ≠ k) }

/-- Property deletion `delete f.k`: silently ignored on a frozen object. -/
def deleteProperty (f : FnObject) (k : String) : FnObject :=
  if f.frozen then f
  else { f with props := f.props.filter (fun p => p.1 ≠ k) }

/-- The closure returned by `ui`: it captures `tag` and `create` (the
initializer, identified by `createId`), and carries its function object. -/
structure MakeFn where
  tag : String
  createId : Nat
  object : FnObject
  deriving Repr

/-- An initializer `(element, params) → handle`, which may throw. -/
def Initializer : Type :=
  Nat → JSValue → Except JSError JSValue

/-- An environment resolving initializer identities to their code. -/
def Env : Type :=
  Nat → Initializer

/-- The `Object.freeze(function make_element(params) {...})` value returned
by `ui`: a fresh function object, frozen, closed over `tag` and `create`. -/
def mkMake (tag : String) (createId : Nat) : MakeFn :=
  { tag := tag, createId := createId,
    object := freeze { frozen := false, props := [] } }

/-- Definition operation `ui(tag, create)`: register the lifecycle class for
`tag` unless
`customElements.get(tag)` is already defined, then return the frozen
`make_element` closure. -/
def ui (s : State) (tag : String) (createId : Nat) : Except JSError (State × MakeFn) :=
  match (if ceGet s tag = none then ceDefine s tag .uiClass else .ok s) with
  | .error e => .error e
  | .ok s1 => .ok (s1, mkMake tag createId)

/-- Export `export default Object.freeze(ui)`: the exported function object. -/
def uiExport : FnObject :=
  freeze { frozen := false, props := [] }

/-- The outcome of a `make_element(params)` call: the returned element id or
the propagated error, the state after the call, and the events of the call. -/
structure MakeResult where
  result : Except JSError Nat
  state : State
  events : List Event
  deriving Repr

/-- Factory `make_element(params)`:
`const element = document.createElement(tag);
 instances.set(element, create(element, params));
 return element;`
The element is constructed unattached; the initializer runs synchronously;
if it throws, the error propagates and `instances.set` never runs. -/
def make_element (env : Env) (mf : MakeFn) (params : JSValue) (s : State) : MakeResult :=
  let elemId := s.nextId
  let s1 : State := { s with
    nextId := s.nextId + 1,
    elements := (elemId, { tag := mf.tag, attached := false }) :: s.elements }
  match env mf.createId elemId params with
  | .error e =>
      { result := .error e, state := s1,
        events := [.createElement elemId mf.tag, .initCall mf.createId elemId params] }
  | .ok handle =>
      { result := .ok elemId,
        state := { s1 with instances := (elemId, handle) :: s1.instances },
        events := [.createElement elemId mf.tag, .initCall mf.createId elemId params] }

/-- Set the attached flag of one element. -/
def setAttached (es : List (Nat × ElementRec)) (elemId : Nat) (b : Bool) :
    List (Nat × ElementRec) :=
  es.map (fun p => if p.1 = elemId then (p.1, { p.2 with attached := b }) else p)

/-- The host platform inserts element `elemId` into the document: it becomes
attached and the lifecycle callback registered for its tag (if any) fires.
Elements already attached, or unknown to the platform, yield no transition. -/
def attach (s : State) (elemId : Nat) : Except JSError (State × List Event) :=
  match alookup s.elements elemId with
  | none => .ok (s, [])
  | some er =>
      if er.attached then .ok (s, [])
      else
        let s1 : State := { s with elements := setAttached s.elements elemId true }
        match ceGet s er.tag with
        | some .uiClass =>
            match connectedCallback s1 elemId with
            | .error e => .error e
            | .ok evs => .ok (s1, evs)
        | some (.foreign code) => .ok (s1, [.foreignCallback code "connected" elemId])
        | none => .ok (s1, [])

/-- The host platform removes element `elemId` from the document: it becomes
unattached and the disconnect lifecycle callback registered for its tag
(if any) fires. -/
def detach (s : State) (elemId : Nat) : Except JSError (State × List Event) :=
  match alookup s.elements elemId with
  | none => .ok (s, [])
  | some er =>
      if er.attached then
        let s1 : State := { s with elements := setAttached s.elements elemId false }
        match ceGet s er.tag with
        | some .uiClass =>
            match disconnectedCallback s1 elemId with
            | .error e => .error e
            | .ok evs => .ok (s1, evs)
        | some (.foreign code) => .ok (s1, [.foreignCallback code "disconnected" elemId])
        | none => .ok (s1, [])
      else .ok (s, [])

/-- A document-membership transition driven by the host platform. -/
inductive HostOp : Type
  | attach : Nat → HostOp
  | detach : Nat → HostOp
  deriving Repr, DecidableEq

/-- The element a host transition concerns. -/
def HostOp.target : HostOp → Nat
  | .attach e => e
  | .detach e => e

/-- Run one host transition. -/
def applyOp (s : State) : HostOp → Except JSError (State × List Event)
  | .attach e => attach s e
  | .detach e => detach s e

/-- Run a sequence of host transitions, accumulating events. -/
def applyOps (s : State) : List HostOp → Except JSError (State × List Event)
  | [] => .ok (s, [])
  | op :: rest =>
      match applyOp s op with
      | .error e => .error e
      | .ok (s1, evs) =>
          match applyOps s1 rest with
          | .error e => .error e
          | .ok (s2, evs2) => .ok (s2, evs ++ evs2)

/-- The garbage collector reclaims an unreachable element: the element and —
because `instances` is a `WeakMap`, which holds its keys weakly — its handle
association vanish, with no call into the library. -/
def collect (s : State) (elemId : Nat) : State :=
  { s with
    elements := s.elements.filter (fun p => p.1 ≠ elemId),
    instances := s.instances.filter (fun p => p.1 ≠ elemId) }

/-! ## Helper lemmas -/

/-- Optional chaining never throws: the `?.` in the lifecycle callbacks is
what protects them from a TypeError on an absent handle. -/
theorem optChain_isOk (v : JSValue) (name : String) : ∃ w, optChain v name = .ok w := by
  cases v with
  | undefined => exact ⟨.undefined, rfl⟩
  | fn i => exact ⟨.undefined, rfl⟩
  | prim => exact ⟨.undefined, rfl⟩
  | obj c d =>
      unfold optChain getMember
      by_cases h1 : name = "connect"
      · simp [h1]
      · by_cases h2 : name = "disconnect" <;> simp [h1, h2]

/-- The callback `connectedCallback` never throws, and either invokes one
function with no
arguments or does nothing. -/
theorem connectedCallback_shape (s : State) (e : Nat) :
    connectedCallback s e = .ok [] ∨
      ∃ f, connectedCallback s e = .ok [.invoke f []] := by
  obtain ⟨w, hw⟩ := optChain_isOk (instancesGet s e) "connect"
  unfold connectedCallback
  rw [hw]
  cases hf : isFunction w with
  | false => left; simp [hf]
  | true => right; exact ⟨fnId w, by simp [hf]⟩

/-- The callback `disconnectedCallback` never throws, and either invokes one
function with
no arguments or does nothing. -/
theorem disconnectedCallback_shape (s : State) (e : Nat) :
    disconnectedCallback s e = .ok [] ∨
      ∃ f, disconnectedCallback s e = .ok [.invoke f []] := by
  obtain ⟨w, hw⟩ := optChain_isOk (instancesGet s e) "disconnect"
  unfold disconnectedCallback
  rw [hw]
  cases hf : isFunction w with
  | false => left; simp [hf]
  | true => right; exact ⟨fnId w, by simp [hf]⟩

/-- Everything a successful `ui` call guarantees: the returned closure, how
the registry changed, and that nothing else of the state changed. -/
theorem ui_ok_inv (s : State) (tag : String) (cid : Nat) (s' : State) (m : MakeFn)
    (h : ui s tag cid = .ok (s', m)) :
    m = mkMake tag cid ∧
    s'.instances = s.instances ∧ s'.elements = s.elements ∧ s'.nextId = s.nextId ∧
    ceGet s' tag ≠ none ∧
    (ceGet s tag = none → s'.registry = (tag, .uiClass) :: s.registry) ∧
    (ceGet s tag ≠ none → s' = s) := by
  unfold ui at h
  by_cases hc : ceGet s tag = none
  · rw [if_pos hc] at h
    unfold ceDefine at h
    by_cases hv : validTagName tag = false
    · rw [if_pos hv] at h; cases h
    · rw [if_neg hv, hc] at h
      simp only [Option.isSome_none, Bool.false_eq_true, if_false] at h
      cases h
      refine ⟨rfl, rfl, rfl, rfl, ?_, fun _ => rfl, fun hn => absurd hc hn⟩
      simp [ceGet, alookup]
  · rw [if_neg hc] at h
    cases h
    exact ⟨rfl, rfl, rfl, rfl, hc, fun hn => absurd hn hc, fun _ => rfl⟩

/-- The `ui` operation can only fail with the invalid-name error of the host
platform, never
with the duplicate-registration error: the `customElements.get` guard means
`customElements.define` is only reached for an unregistered tag. -/
theorem ui_error_inv (s : State) (tag : String) (cid : Nat) (e : JSError)
    (h : ui s tag cid = .error e) : e = .syntaxError ∧ validTagName tag = false := by
  unfold ui at h
  by_cases hc : ceGet s tag = none
  · rw [if_pos hc] at h
    unfold ceDefine at h
    by_cases hv : validTagName tag = false
    · rw [if_pos hv] at h
      cases h
      exact ⟨rfl, hv⟩
    · rw [if_neg hv, hc] at h
      simp only [Option.isSome_none, Bool.false_eq_true, if_false] at h
      cases h
  · rw [if_neg hc] at h
    cases h

/-! ## Claims -/

/-- C1: for every valid tag name `tag` and initializers `c1`, `c2`, calling
`ui` twice with the same `tag` raises no "duplicate registration"
(NotSupportedError) failure: the first call succeeds, and the second call
skips the platform registration step entirely, returning the same state
unchanged — each tag is bound to the platform at most once. -/
theorem C1_idempotent_registration (s : State) (tag : String) (c1 c2 : Nat)
    (hv : validTagName tag = true) :
    (∀ e, ui s tag c1 ≠ .error e) ∧
    (∀ s1 m1, ui s tag c1 = .ok (s1, m1) →
      ui s1 tag c2 = .ok (s1, mkMake tag c2)) := by
  constructor
  · intro e he
    obtain ⟨_, hval⟩ := ui_error_inv s tag c1 e he
    rw [hv] at hval
    cases hval
  · intro s1 m1 h1
    obtain ⟨_, _, _, _, hreg, _, _⟩ := ui_ok_inv s tag c1 s1 m1 h1
    unfold ui
    rw [if_neg hreg]

def c1s : State := { registry := [], instances := [], elements := [], nextId := 0 }

def c1s1 : State :=
  { registry := [("x-counter", .uiClass)], instances := [], elements := [], nextId := 0 }

/-- C1 witness: two registrations of `x-counter` on a fresh state. -/
theorem C1_idempotent_registration_witness :
    validTagName "x-counter" = true ∧
    ui c1s1 "x-counter" 1 = .ok (c1s1, mkMake "x-counter" 1) :=
  ⟨rfl, (C1_idempotent_registration c1s "x-counter" 0 1 rfl).2 c1s1
    (mkMake "x-counter" 0) rfl⟩

/-- C2: when the initializer returns normally, `make(params)` invokes it
exactly once, synchronously within the call, with the freshly constructed
instance and `params` as its two arguments; the instance handed back is the
very element constructed for the requested tag, still unattached, and its
handle is recorded against it. -/
theorem C2_make_runs_initializer_once (env : Env) (mf : MakeFn) (params : JSValue)
    (s : State) (handle : JSValue)
    (h : env mf.createId s.nextId params = .ok handle) :
    (make_element env mf params s).result = .ok s.nextId ∧
    (make_element env mf params s).events =
      [.createElement s.nextId mf.tag, .initCall mf.createId s.nextId params] ∧
    (make_element env mf params s).events.filter Event.isInit =
      [.initCall mf.createId s.nextId params] ∧
    alookup (make_element env mf params s).state.elements s.nextId =
      some { tag := mf.tag, attached := false } ∧
    alookup (make_element env mf params s).state.instances s.nextId = some handle := by
  simp only [make_element]
  rw [h]
  refine ⟨rfl, rfl, rfl, ?_, ?_⟩ <;> simp [alookup]

def c2env : Env := fun _ => fun _ _ => .ok (.obj (some (.fn 7)) (some (.fn 8)))

def c2mf : MakeFn := mkMake "x-counter" 0

def c2s : State :=
  { registry := [("x-counter", .uiClass)], instances := [], elements := [], nextId := 0 }

/-- C2 witness: a concrete `make` call whose initializer returns a handle
with both callbacks. -/
theorem C2_make_runs_initializer_once_witness :
    (make_element c2env c2mf .prim c2s).result = .ok c2s.nextId ∧
    (make_element c2env c2mf .prim c2s).events =
      [.createElement c2s.nextId c2mf.tag, .initCall c2mf.createId c2s.nextId .prim] ∧
    (make_element c2env c2mf .prim c2s).events.filter Event.isInit =
      [.initCall c2mf.createId c2s.nextId .prim] ∧
    alookup (make_element c2env c2mf .prim c2s).state.elements c2s.nextId =
      some { tag := c2mf.tag, attached := false } ∧
    alookup (make_element c2env c2mf .prim c2s).state.instances c2s.nextId =
      some (.obj (some (.fn 7)) (some (.fn 8))) :=
  C2_make_runs_initializer_once c2env c2mf .prim c2s
    (.obj (some (.fn 7)) (some (.fn 8))) rfl

/-- C3: the attach callback looks up the handle of the instance and invokes its
`connect` with no arguments when that is a function; the detach callback does
the identical lookup and conditional invocation of `disconnect`; when the
handle is absent or lacks the field, the callback throws nothing and does
nothing. -/
theorem C3_lifecycle_callbacks (s : State) (e : Nat) :
    (∃ evs, connectedCallback s e = .ok evs) ∧
    (∃ evs, disconnectedCallback s e = .ok evs) ∧
    (∀ f d, instancesGet s e = .obj (some (.fn f)) d →
      connectedCallback s e = .ok [.invoke f []]) ∧
    (∀ c f, instancesGet s e = .obj c (some (.fn f)) →
      disconnectedCallback s e = .ok [.invoke f []]) ∧
    (instancesGet s e = .undefined →
      connectedCallback s e = .ok [] ∧ disconnectedCallback s e = .ok []) ∧
    (∀ d, instancesGet s e = .obj none d → connectedCallback s e = .ok []) ∧
    (∀ c, instancesGet s e = .obj c none → disconnectedCallback s e = .ok []) := by
  refine ⟨?_, ?_, ?_, ?_, ?_, ?_, ?_⟩
  · rcases connectedCallback_shape s e with h | ⟨f, h⟩
    exacts [⟨[], h⟩, ⟨[.invoke f []], h⟩]
  · rcases disconnectedCallback_shape s e with h | ⟨f, h⟩
    exacts [⟨[], h⟩, ⟨[.invoke f []], h⟩]
  · intro f d h
    simp [connectedCallback, optChain, getMember, h, isFunction, fnId]
  · intro c f h
    simp [disconnectedCallback, optChain, getMember, h, isFunction, fnId]
  · intro h
    constructor <;> simp [connectedCallback, disconnectedCallback, optChain, h, isFunction]
  · intro d h
    simp [connectedCallback, optChain, getMember, h, isFunction]
  · intro c h
    simp [disconnectedCallback, optChain, getMember, h, isFunction]

def c3s : State :=
  { registry := [("x-counter", .uiClass)],
    instances := [(0, .obj (some (.fn 5)) none)],
    elements := [(0, { tag := "x-counter", attached := false })],
    nextId := 1 }

/-- C3 witness: an instance whose handle has `connect` but no `disconnect`,
and an instance with no handle at all. -/
theorem C3_lifecycle_callbacks_witness :
    connectedCallback c3s 0 = .ok [.invoke 5 []] ∧
    disconnectedCallback c3s 0 = .ok [] ∧
    connectedCallback c3s 9 = .ok [] ∧
    disconnectedCallback c3s 9 = .ok [] :=
  ⟨(C3_lifecycle_callbacks c3s 0).2.2.1 5 none rfl,
   (C3_lifecycle_callbacks c3s 0).2.2.2.2.2.2 (some (.fn 5)) rfl,
   ((C3_lifecycle_callbacks c3s 9).2.2.2.2.1 rfl).1,
   ((C3_lifecycle_callbacks c3s 9).2.2.2.2.1 rfl).2⟩

/-- C5: if the initializer throws during `make(params)`, the error propagates
synchronously out of `make`, no instance id is returned, and the Instance
Handle Map is exactly as it was before the call. -/
theorem C5_initializer_throw_no_partial_state (env : Env) (mf : MakeFn)
    (params : JSValue) (s : State) (err : JSError)
    (h : env mf.createId s.nextId params = .error err) :
    (make_element env mf params s).result = .error err ∧
    (make_element env mf params s).state.instances = s.instances := by
  simp only [make_element]
  rw [h]
  exact ⟨rfl, rfl⟩

def c5env : Env := fun _ => fun _ _ => .error (.thrown 42)

def c5s : State :=
  { registry := [("x-counter", .uiClass)],
    instances := [(0, .obj none none)],
    elements := [(0, { tag := "x-counter", attached := false })],
    nextId := 1 }

/-- C5 witness: a throwing initializer leaves the map with exactly its one
prior entry. -/
theorem C5_initializer_throw_no_partial_state_witness :
    (make_element c5env (mkMake "x-counter" 3) .prim c5s).result =
      .error (.thrown 42) ∧
    (make_element c5env (mkMake "x-counter" 3) .prim c5s).state.instances =
      c5s.instances :=
  C5_initializer_throw_no_partial_state c5env (mkMake "x-counter" 3) .prim c5s
    (.thrown 42) rfl

/-- C10: a `connect` or `disconnect` field that is present but not a function
is never invoked and causes no throw; a field is invoked exactly when its
runtime type is a function. -/
theorem C10_nonfunction_field_skipped (s : State) (e : Nat) (v : JSValue)
    (hv : isFunction v = false) :
    (∀ d, instancesGet s e = .obj (some v) d → connectedCallback s e = .ok []) ∧
    (∀ c, instancesGet s e = .obj c (some v) → disconnectedCallback s e = .ok []) ∧
    (∀ f d, instancesGet s e = .obj (some (.fn f)) d →
      connectedCallback s e = .ok [.invoke f []]) ∧
    (∀ c f, instancesGet s e = .obj c (some (.fn f)) →
      disconnectedCallback s e = .ok [.invoke f []]) := by
  refine ⟨?_, ?_, ?_, ?_⟩
  · intro d h
    simp [connectedCallback, optChain, getMember, h, hv]
  · intro c h
    simp [disconnectedCallback, optChain, getMember, h, hv]
  · intro f d h
    simp [connectedCallback, optChain, getMember, h, isFunction, fnId]
  · intro c f h
    simp [disconnectedCallback, optChain, getMember, h, isFunction, fnId]

def c10s : State :=
  { registry := [("x-blink", .uiClass)],
    instances := [(0, .obj (some .prim) (some (.obj none none)))],
    elements := [(0, { tag := "x-blink", attached := false })],
    nextId := 1 }

/-- C10 witness: a handle whose `connect` is a string-like primitive and
whose `disconnect` is a plain object — neither is invoked, nothing throws. -/
theorem C10_nonfunction_field_skipped_witness :
    connectedCallback c10s 0 = .ok [] ∧ disconnectedCallback c10s 0 = .ok [] :=
  ⟨(C10_nonfunction_field_skipped c10s 0 .prim rfl).1 (some (.obj none none)) rfl,
   (C10_nonfunction_field_skipped c10s 0 (.obj none none) rfl).2.1 (some .prim) rfl⟩

/-- The callback `connectedCallback` cannot throw. -/
theorem connectedCallback_ne_error (s : State) (e : Nat) (err : JSError) :
    connectedCallback s e ≠ .error err := by
  rcases connectedCallback_shape s e with h | ⟨f, h⟩ <;> rw [h] <;> simp

/-- The callback `disconnectedCallback` cannot throw. -/
theorem disconnectedCallback_ne_error (s : State) (e : Nat) (err : JSError) :
    disconnectedCallback s e ≠ .error err := by
  rcases disconnectedCallback_shape s e with h | ⟨f, h⟩ <;> rw [h] <;> simp

/-- The callback `connectedCallback` never calls an initializer. -/
theorem connectedCallback_no_init (s : State) (e : Nat) (evs : List Event)
    (h : connectedCallback s e = .ok evs) :
    ∀ cid i p, Event.initCall cid i p ∉ evs := by
  rcases connectedCallback_shape s e with h' | ⟨f, h'⟩ <;> rw [h'] at h <;>
    cases h <;> intro cid i p <;> simp

/-- The callback `disconnectedCallback` never calls an initializer. -/
theorem disconnectedCallback_no_init (s : State) (e : Nat) (evs : List Event)
    (h : disconnectedCallback s e = .ok evs) :
    ∀ cid i p, Event.initCall cid i p ∉ evs := by
  rcases disconnectedCallback_shape s e with h' | ⟨f, h'⟩ <;> rw [h'] at h <;>
    cases h <;> intro cid i p <;> simp

/-- An attach transition succeeds and leaves the Instance Handle Map, the
registry and the allocation counter untouched, and calls no initializer. -/
theorem attach_frame (s : State) (e : Nat) :
    ∃ s' evs, attach s e = .ok (s', evs) ∧ s'.instances = s.instances ∧
      s'.registry = s.registry ∧ s'.nextId = s.nextId ∧
      ∀ cid i p, Event.initCall cid i p ∉ evs := by
  simp only [attach]
  split
  · exact ⟨s, [], rfl, rfl, rfl, rfl, by simp⟩
  · split
    · exact ⟨s, [], rfl, rfl, rfl, rfl, by simp⟩
    · split
      · split
        · rename_i err hc
          exact absurd hc (connectedCallback_ne_error _ _ err)
        · rename_i evs hc
          exact ⟨_, evs, rfl, rfl, rfl, rfl, connectedCallback_no_init _ _ evs hc⟩
      · exact ⟨_, _, rfl, rfl, rfl, rfl, by simp⟩
      · exact ⟨_, _, rfl, rfl, rfl, rfl, by simp⟩

/-- A detach transition succeeds and leaves the Instance Handle Map, the
registry and the allocation counter untouched, and calls no initializer. -/
theorem detach_frame (s : State) (e : Nat) :
    ∃ s' evs, detach s e = .ok (s', evs) ∧ s'.instances = s.instances ∧
      s'.registry = s.registry ∧ s'.nextId = s.nextId ∧
      ∀ cid i p, Event.initCall cid i p ∉ evs := by
  simp only [detach]
  split
  · exact ⟨s, [], rfl, rfl, rfl, rfl, by simp⟩
  · split
    · split
      · split
        · rename_i err hc
          exact absurd hc (disconnectedCallback_ne_error _ _ err)
        · rename_i evs hc
          exact ⟨_, evs, rfl, rfl, rfl, rfl, disconnectedCallback_no_init _ _ evs hc⟩
      · exact ⟨_, _, rfl, rfl, rfl, rfl, by simp⟩
      · exact ⟨_, _, rfl, rfl, rfl, rfl, by simp⟩
    · exact ⟨s, [], rfl, rfl, rfl, rfl, by simp⟩

/-- Any single host transition succeeds and preserves the map. -/
theorem applyOp_frame (s : State) (op : HostOp) :
    ∃ s' evs, applyOp s op = .ok (s', evs) ∧ s'.instances = s.instances ∧
      s'.registry = s.registry ∧ s'.nextId = s.nextId ∧
      ∀ cid i p, Event.initCall cid i p ∉ evs := by
  cases op with
  | attach e => exact attach_frame s e
  | detach e => exact detach_frame s e

/-- C4: no attach or detach transition, nor any sequence of them, re-invokes
an initializer or replaces an Instance Handle Map entry: for every instance,
the handle lookup after the sequence yields exactly what `make` stored, so a
re-attach invokes `connect` on the very handle recorded at construction. -/
theorem C4_handle_fixed_for_lifetime (s : State) (ops : List HostOp) :
    ∃ s' evs, applyOps s ops = .ok (s', evs) ∧
      s'.instances = s.instances ∧
      (∀ e, instancesGet s' e = instancesGet s e) ∧
      ∀ cid i p, Event.initCall cid i p ∉ evs := by
  induction ops generalizing s with
  | nil => exact ⟨s, [], rfl, rfl, fun _ => rfl, by simp⟩
  | cons op rest ih =>
      obtain ⟨s1, evs1, h1, hi1, _, _, hno1⟩ := applyOp_frame s op
      obtain ⟨s2, evs2, h2, hi2, hg2, hno2⟩ := ih s1
      refine ⟨s2, evs1 ++ evs2, ?_, ?_, ?_, ?_⟩
      · simp only [applyOps, h1, h2]
      · rw [hi2, hi1]
      · intro e
        rw [hg2 e]
        simp [instancesGet, hi1]
      · intro cid i p
        simp only [List.mem_append, not_or]
        exact ⟨hno1 cid i p, hno2 cid i p⟩

def c4s : State :=
  { registry := [("x-counter", .uiClass)],
    instances := [(0, .obj (some (.fn 5)) (some (.fn 6)))],
    elements := [(0, { tag := "x-counter", attached := false })],
    nextId := 1 }

/-- C4 witness: attach, detach, re-attach one instance; `connect` (function
5) fires on both attaches, `disconnect` (function 6) in between, and the map
is untouched. -/
theorem C4_handle_fixed_for_lifetime_witness :
    (∃ s' evs, applyOps c4s [.attach 0, .detach 0, .attach 0] = .ok (s', evs) ∧
      s'.instances = c4s.instances ∧
      (∀ e, instancesGet s' e = instancesGet c4s e) ∧
      ∀ cid i p, Event.initCall cid i p ∉ evs) ∧
    applyOps c4s [.attach 0, .detach 0, .attach 0] =
      .ok ({ registry := [("x-counter", .uiClass)],
             instances := [(0, .obj (some (.fn 5)) (some (.fn 6)))],
             elements := [(0, { tag := "x-counter", attached := true })],
             nextId := 1 },
           [.invoke 5 [], .invoke 6 [], .invoke 5 []]) :=
  ⟨C4_handle_fixed_for_lifetime c4s [.attach 0, .detach 0, .attach 0], rfl⟩

/-- C8: the `make` function returned by `ui`, and the exported `ui` function
itself, are frozen: property assignment and deletion leave them unchanged. -/
theorem C8_frozen_functions (s : State) (tag : String) (cid : Nat) (s' : State)
    (m : MakeFn) (h : ui s tag cid = .ok (s', m)) :
    m.object.frozen = true ∧
    (∀ k v, setProperty m.object k v = m.object) ∧
    (∀ k, deleteProperty m.object k = m.object) ∧
    uiExport.frozen = true ∧
    (∀ k v, setProperty uiExport k v = uiExport) ∧
    (∀ k, deleteProperty uiExport k = uiExport) := by
  obtain ⟨hm, -, -, -, -, -, -⟩ := ui_ok_inv s tag cid s' m h
  subst hm
  exact ⟨rfl, fun k v => rfl, fun k => rfl, rfl, fun k v => rfl, fun k => rfl⟩

def c8s : State := { registry := [], instances := [], elements := [], nextId := 0 }

def c8s1 : State :=
  { registry := [("x-widget", .uiClass)], instances := [], elements := [], nextId := 0 }

/-- C8 witness: mutating the concrete frozen `make` for `x-widget` and the
exported function is a no-op. -/
theorem C8_frozen_functions_witness :
    (mkMake "x-widget" 0).object.frozen = true ∧
    setProperty (mkMake "x-widget" 0).object "hack" .prim = (mkMake "x-widget" 0).object ∧
    deleteProperty (mkMake "x-widget" 0).object "hack" = (mkMake "x-widget" 0).object ∧
    uiExport.frozen = true ∧
    setProperty uiExport "hack" .prim = uiExport ∧
    deleteProperty uiExport "hack" = uiExport :=
  have h := C8_frozen_functions c8s "x-widget" 0 c8s1 (mkMake "x-widget" 0) rfl
  ⟨h.1, h.2.1 "hack" .prim, h.2.2.1 "hack", h.2.2.2.1,
   h.2.2.2.2.1 "hack" .prim, h.2.2.2.2.2 "hack"⟩

/-- C6: when `ui` is called a second time with the same tag but a different
initializer, each returned `make` closes over its own initializer — every
instance a `make` constructs gets that `make`'s initializer — while the
second call leaves the registry exactly as the first registration made it,
so the platform-level lifecycle callbacks are shared by the whole tag. -/
theorem C6_each_make_own_initializer (s : State) (tag : String) (c1 c2 : Nat)
    (s1 s2 : State) (m1 m2 : MakeFn)
    (h1 : ui s tag c1 = .ok (s1, m1)) (h2 : ui s1 tag c2 = .ok (s2, m2)) :
    m1.createId = c1 ∧ m2.createId = c2 ∧ m1.tag = tag ∧ m2.tag = tag ∧
    s2 = s1 ∧ ceGet s2 tag = ceGet s1 tag ∧
    (∀ env params st,
      (make_element env m1 params st).events =
        [.createElement st.nextId tag, .initCall c1 st.nextId params]) ∧
    (∀ env params st,
      (make_element env m2 params st).events =
        [.createElement st.nextId tag, .initCall c2 st.nextId params]) := by
  obtain ⟨hm1, -, -, -, hne, -, -⟩ := ui_ok_inv s tag c1 s1 m1 h1
  obtain ⟨hm2, -, -, -, -, -, hskip⟩ := ui_ok_inv s1 tag c2 s2 m2 h2
  have hs : s2 = s1 := hskip hne
  subst hm1; subst hm2
  refine ⟨rfl, rfl, rfl, rfl, hs, by rw [hs], ?_, ?_⟩ <;>
    · intro env params st
      simp only [make_element, mkMake]
      cases henv : env _ st.nextId params <;> simp [henv]

def c6s : State := { registry := [], instances := [], elements := [], nextId := 0 }

def c6s1 : State :=
  { registry := [("x-blink", .uiClass)], instances := [], elements := [], nextId := 0 }

def c6env : Env := fun _ => fun _ _ => .ok .undefined

/-- C6 witness: define `x-blink` twice with initializers 3 and 4; the second
`make` constructs its instance with initializer 4, and the registry is the
one the first call installed. -/
theorem C6_each_make_own_initializer_witness :
    (mkMake "x-blink" 3).createId = 3 ∧ (mkMake "x-blink" 4).createId = 4 ∧
    ceGet c6s1 "x-blink" = ceGet c6s1 "x-blink" ∧
    (make_element c6env (mkMake "x-blink" 4) .prim c6s1).events =
      [.createElement c6s1.nextId "x-blink", .initCall 4 c6s1.nextId .prim] :=
  have h := C6_each_make_own_initializer c6s "x-blink" 3 4 c6s1 c6s1
    (mkMake "x-blink" 3) (mkMake "x-blink" 4) rfl rfl
  ⟨h.1, h.2.1, h.2.2.2.2.2.1, h.2.2.2.2.2.2.2 c6env .prim c6s1⟩

/-- C9: when the tag already has a registration — including one made by code
outside this library — `ui` installs nothing (the state is returned
untouched) yet still returns the frozen `make`; that `make` constructs
instances, runs the initializer and records handles as usual, and the
attach/detach behavior of such instances is entirely that of the pre-existing
registration. -/
theorem C9_preexisting_registration (s : State) (tag : String) (code cid : Nat)
    (h : ceGet s tag = some (.foreign code)) :
    ui s tag cid = .ok (s, mkMake tag cid) ∧
    (mkMake tag cid).object.frozen = true ∧
    (∀ env params st handle, env cid st.nextId params = .ok handle →
      (make_element env (mkMake tag cid) params st).result = .ok st.nextId ∧
      alookup (make_element env (mkMake tag cid) params st).state.instances st.nextId
        = some handle ∧
      (make_element env (mkMake tag cid) params st).events =
        [.createElement st.nextId tag, .initCall cid st.nextId params]) ∧
    (∀ st e, alookup st.elements e = some { tag := tag, attached := false } →
      ceGet st tag = some (.foreign code) →
      attach st e = .ok ({ st with elements := setAttached st.elements e true },
        [.foreignCallback code "connected" e])) ∧
    (∀ st e, alookup st.elements e = some { tag := tag, attached := true } →
      ceGet st tag = some (.foreign code) →
      detach st e = .ok ({ st with elements := setAttached st.elements e false },
        [.foreignCallback code "disconnected" e])) := by
  refine ⟨?_, rfl, ?_, ?_, ?_⟩
  · unfold ui
    rw [if_neg (by rw [h]; simp)]
  · intro env params st handle henv
    simp only [make_element, mkMake]
    rw [henv]
    exact ⟨rfl, by simp [alookup], rfl⟩
  · intro st e hl hg
    simp [attach, hl, hg]
  · intro st e hl hg
    simp [detach, hl, hg]

def c9s : State :=
  { registry := [("x-thing", .foreign 11)],
    instances := [],
    elements := [(0, { tag := "x-thing", attached := false })],
    nextId := 1 }

def c9env : Env := fun _ => fun _ _ => .ok (.obj (some (.fn 2)) none)

/-- C9 witness: `x-thing` is registered by foreign code 11; `ui` changes
nothing, its `make` still records the handle, and attach fires the foreign
callback. -/
theorem C9_preexisting_registration_witness :
    ui c9s "x-thing" 5 = .ok (c9s, mkMake "x-thing" 5) ∧
    (make_element c9env (mkMake "x-thing" 5) .prim c9s).result = .ok c9s.nextId ∧
    alookup (make_element c9env (mkMake "x-thing" 5) .prim c9s).state.instances
      c9s.nextId = some (.obj (some (.fn 2)) none) ∧
    attach c9s 0 = .ok ({ c9s with elements := setAttached c9s.elements 0 true },
      [.foreignCallback 11 "connected" 0]) :=
  have h := C9_preexisting_registration c9s "x-thing" 11 5 rfl
  have hmk := h.2.2.1 c9env .prim c9s (.obj (some (.fn 2)) none) rfl
  ⟨h.1, hmk.1, hmk.2.1, h.2.2.2.1 c9s 0 rfl rfl⟩

/-! ## Garbage collection of the weak map -/

/-- Removing the entry of one key does not change lookups of other keys. -/
theorem alookup_filter_ne {β : Type} (l : List (Nat × β)) (a g : Nat) (h : a ≠ g) :
    alookup (l.filter (fun p => p.1 ≠ g)) a = alookup l a := by
  induction l with
  | nil => rfl
  | cons p rest ih =>
      rcases p with ⟨k, v⟩
      simp only [decide_not] at ih ⊢
      by_cases hk : k = g
      · subst hk
        have hka : ¬(k = a) := fun hh => h (hh ▸ rfl)
        simp [List.filter_cons, alookup, hka, ih]
      · simp [List.filter_cons, alookup, hk, ih]

/-- After removal, the removed key has no entry. -/
theorem alookup_filter_self {β : Type} (l : List (Nat × β)) (g : Nat) :
    alookup (l.filter (fun p => p.1 ≠ g)) g = none := by
  induction l with
  | nil => rfl
  | cons p rest ih =>
      simp only [decide_not] at ih ⊢
      by_cases hk : p.1 = g <;> simp [List.filter_cons, alookup, hk, ih]

theorem collect_registry (s : State) (g : Nat) :
    (collect s g).registry = s.registry := rfl

theorem collect_instances (s : State) (g : Nat) :
    (collect s g).instances = s.instances.filter (fun p => p.1 ≠ g) := rfl

theorem collect_elements (s : State) (g : Nat) :
    (collect s g).elements = s.elements.filter (fun p => p.1 ≠ g) := rfl

theorem collect_nextId (s : State) (g : Nat) :
    (collect s g).nextId = s.nextId := rfl

/-- The lifecycle callbacks read only the map entry of the instance itself. -/
theorem connectedCallback_eq_of_get (s1 s2 : State) (e : Nat)
    (h : instancesGet s1 e = instancesGet s2 e) :
    connectedCallback s1 e = connectedCallback s2 e := by
  simp [connectedCallback, h]

theorem disconnectedCallback_eq_of_get (s1 s2 : State) (e : Nat)
    (h : instancesGet s1 e = instancesGet s2 e) :
    disconnectedCallback s1 e = disconnectedCallback s2 e := by
  simp [disconnectedCallback, h]

/-- Setting the attached flag commutes with dropping another element. -/
theorem setAttached_filter (es : List (Nat × ElementRec)) (e g : Nat) (b : Bool) :
    setAttached (es.filter (fun p => p.1 ≠ g)) e b =
      (setAttached es e b).filter (fun p => p.1 ≠ g) := by
  induction es with
  | nil => rfl
  | cons p rest ih =>
      rcases p with ⟨k, v⟩
      simp only [decide_not, setAttached] at ih ⊢
      by_cases hk : k = g
      · subst hk
        by_cases hke : k = e
        · subst hke
          simp [List.filter_cons, ih]
        · simp [List.filter_cons, hke, ih]
      · by_cases hke : k = e
        · subst hke
          simp [List.filter_cons, hk, ih]
        · simp [List.filter_cons, hk, hke, ih]

/-- Reclaiming one element and updating the attached flag of another commute at
the state level. -/
theorem collect_setAttached (s : State) (g e : Nat) (b : Bool) :
    ({ collect s g with elements := setAttached (collect s g).elements e b } : State) =
      collect { s with elements := setAttached s.elements e b } g := by
  have hs := setAttached_filter s.elements e g b
  simp only [collect]
  rw [State.mk.injEq]
  exact ⟨rfl, rfl, hs, rfl⟩

/-- Attaching an element other than the reclaimed one behaves identically
before and after reclamation. -/
theorem attach_collect (s : State) (g e : Nat) (h : e ≠ g) :
    attach (collect s g) e =
      Except.map (fun p => (collect p.1 g, p.2)) (attach s e) := by
  have hst :
      ({ registry := s.registry,
         instances := s.instances.filter (fun p => p.1 ≠ g),
         elements := setAttached (s.elements.filter (fun p => p.1 ≠ g)) e true,
         nextId := s.nextId } : State) =
      collect { registry := s.registry, instances := s.instances,
                elements := setAttached s.elements e true, nextId := s.nextId } g := by
    simp only [collect]
    rw [State.mk.injEq]
    exact ⟨rfl, rfl, setAttached_filter s.elements e g true, rfl⟩
  have hcb :
      connectedCallback
        { registry := s.registry,
          instances := s.instances.filter (fun p => p.1 ≠ g),
          elements := setAttached (s.elements.filter (fun p => p.1 ≠ g)) e true,
          nextId := s.nextId } e =
      connectedCallback
        { registry := s.registry, instances := s.instances,
          elements := setAttached s.elements e true, nextId := s.nextId } e := by
    apply connectedCallback_eq_of_get
    simp only [instancesGet]
    rw [alookup_filter_ne s.instances e g h]
  simp only [attach, ceGet, collect_elements, collect_registry, collect_instances,
    collect_nextId, alookup_filter_ne s.elements e g h]
  cases hl : alookup s.elements e with
  | none => rfl
  | some er =>
      obtain ⟨ertag, erat⟩ := er
      cases erat with
      | true => rfl
      | false =>
          simp only []
          cases hg : alookup s.registry ertag with
          | none =>
              rw [hst]
              simp [Except.map]
          | some d =>
              cases d with
              | uiClass =>
                  rw [hcb]
                  cases hc :
                      connectedCallback
                        { registry := s.registry,
                          instances := s.instances,
                          elements := setAttached s.elements e true,
                          nextId := s.nextId } e with
                  | error err => simp [Except.map]
                  | ok evs =>
                      rw [hst]
                      simp [Except.map]
              | foreign code =>
                  rw [hst]
                  simp [Except.map]

/-- Detaching an element other than the reclaimed one behaves identically
before and after reclamation. -/
theorem detach_collect (s : State) (g e : Nat) (h : e ≠ g) :
    detach (collect s g) e =
      Except.map (fun p => (collect p.1 g, p.2)) (detach s e) := by
  have hst :
      ({ registry := s.registry,
         instances := s.instances.filter (fun p => p.1 ≠ g),
         elements := setAttached (s.elements.filter (fun p => p.1 ≠ g)) e false,
         nextId := s.nextId } : State) =
      collect { registry := s.registry, instances := s.instances,
                elements := setAttached s.elements e false, nextId := s.nextId } g := by
    simp only [collect]
    rw [State.mk.injEq]
    exact ⟨rfl, rfl, setAttached_filter s.elements e g false, rfl⟩
  have hcb :
      disconnectedCallback
        { registry := s.registry,
          instances := s.instances.filter (fun p => p.1 ≠ g),
          elements := setAttached (s.elements.filter (fun p => p.1 ≠ g)) e false,
          nextId := s.nextId } e =
      disconnectedCallback
        { registry := s.registry, instances := s.instances,
          elements := setAttached s.elements e false, nextId := s.nextId } e := by
    apply disconnectedCallback_eq_of_get
    simp only [instancesGet]
    rw [alookup_filter_ne s.instances e g h]
  simp only [detach, ceGet, collect_elements, collect_registry, collect_instances,
    collect_nextId, alookup_filter_ne s.elements e g h]
  cases hl : alookup s.elements e with
  | none => rfl
  | some er =>
      obtain ⟨ertag, erat⟩ := er
      cases erat with
      | false => rfl
      | true =>
          simp only []
          cases hg : alookup s.registry ertag with
          | none =>
              rw [hst]
              simp [Except.map]
          | some d =>
              cases d with
              | uiClass =>
                  rw [hcb]
                  cases hc :
                      disconnectedCallback
                        { registry := s.registry,
                          instances := s.instances,
                          elements := setAttached s.elements e false,
                          nextId := s.nextId } e with
                  | error err => simp [Except.map]
                  | ok evs =>
                      rw [hst]
                      simp [Except.map]
              | foreign code =>
                  rw [hst]
                  simp [Except.map]

/-- C7: the Instance Handle Map is a weak, non-owning association: the
garbage collector can reclaim an unreachable instance together with its map
entry — no library call is involved — after which the entry is gone, and any
host transition on any other element produces exactly the same outcome and
events as it would have with the entry still present. -/
theorem C7_weak_association (s : State) (g : Nat) (op : HostOp)
    (h : op.target ≠ g) :
    alookup (collect s g).instances g = none ∧
    instancesGet (collect s g) op.target = instancesGet s op.target ∧
    applyOp (collect s g) op =
      Except.map (fun p => (collect p.1 g, p.2)) (applyOp s op) := by
  refine ⟨?_, ?_, ?_⟩
  · rw [collect_instances]
    exact alookup_filter_self s.instances g
  · simp only [instancesGet, collect_instances]
    rw [alookup_filter_ne s.instances op.target g h]
  · cases op with
    | attach e => exact attach_collect s g e h
    | detach e => exact detach_collect s g e h

def c7s : State :=
  { registry := [("x-counter", .uiClass)],
    instances := [(0, .obj (some (.fn 5)) none), (1, .obj (some (.fn 9)) none)],
    elements := [(0, { tag := "x-counter", attached := false }),
                 (1, { tag := "x-counter", attached := false })],
    nextId := 2 }

/-- C7 witness: after instance 1 is reclaimed its entry is gone, and
attaching instance 0 is unaffected. -/
theorem C7_weak_association_witness :
    alookup (collect c7s 1).instances 1 = none ∧
    instancesGet (collect c7s 1) 0 = instancesGet c7s 0 ∧
    applyOp (collect c7s 1) (.attach 0) =
      Except.map (fun p => (collect p.1 1, p.2)) (applyOp c7s (.attach 0)) :=
  C7_weak_association c7s 1 (.attach 0) (by decide)

end UiJs
